import Mathlib

/-!
# react-christmas-presents — verification of the claim-and-ticket protocol

Shallow embedding of the giveaway application's core logic:

* the Twitch EventSub webhook handler (signature verification with
  HMAC-SHA256, message-type dispatch, ticket crediting) from the
  serverless function source;
* the ticket-ledger operations `getOrCreateUser` / `addTicketToUser`;
* the front-end claim flow `handleVerifyUsername` from `App.tsx`.

JavaScript strings are modelled as Lean `String`; `Buffer.from` /
`crypto` byte views are modelled by an explicit UTF-8 encoder to
`List Nat` (each element `< 256`).  `toLowerCase` is modelled for the
ASCII range (Twitch logins are ASCII), `trim` strips the common
JavaScript whitespace characters.  The remote realtime database is
modelled as association lists in child order; a `PATCH` is a targeted
field update, a `PUT` of a fresh key appends.
-/

/-! ## JavaScript string primitives -/

/-- `s.toLowerCase()` restricted to the ASCII range (`Char.toLower`
lower-cases exactly `A`–`Z`), matching the JS behaviour on the ASCII
usernames and header values this system exchanges. -/
def toLowerStr (s : String) : String :=
  String.mk (s.data.map Char.toLower)

/-- JavaScript whitespace for `String.prototype.trim` (the characters
that actually occur in this system's inputs). -/
def jsWhite (c : Char) : Bool :=
  c = ' ' || c = '\t' || c = '\n' || c = '\r' || c = '\x0b' || c = '\x0c'

/-- `s.trim()`: strip leading and trailing whitespace. -/
def jsTrim (s : String) : String :=
  String.mk (((s.data.dropWhile jsWhite).reverse.dropWhile jsWhite).reverse)

/-- JS truthiness of a possibly-absent string: `undefined` and `""` are
falsy, every other string is truthy. -/
def jsTruthy : Option String → Bool
  | none => false
  | some s => !(s == "")

/-- JS `||` on possibly-absent strings: first operand if truthy, else
the second. -/
def jsOr (a b : Option String) : Option String :=
  if jsTruthy a then a else b

/-- String concatenation coerces JS `undefined` to the text
`"undefined"`; this models reading an absent header into the signed
message. -/
def jsStringOf : Option String → String
  | none => "undefined"
  | some s => s

/-! ## UTF-8 (`Buffer.from(string)`) -/

/-- UTF-8 encoding of one character, as byte values. -/
def utf8Char (c : Char) : List Nat :=
  let n := c.toNat
  if n < 0x80 then [n]
  else if n < 0x800 then [0xC0 + n / 0x40, 0x80 + n % 0x40]
  else if n < 0x10000 then
    [0xE0 + n / 0x1000, 0x80 + n / 0x40 % 0x40, 0x80 + n % 0x40]
  else
    [0xF0 + n / 0x40000, 0x80 + n / 0x1000 % 0x40,
     0x80 + n / 0x40 % 0x40, 0x80 + n % 0x40]

/-- UTF-8 encoding of a character list. -/
def utf8Chars : List Char → List Nat
  | [] => []
  | c :: cs => utf8Char c ++ utf8Chars cs

/-- `Buffer.from(s)`: the UTF-8 bytes of a string. -/
def utf8Str (s : String) : List Nat :=
  utf8Chars s.data

/-! ## SHA-256 (the `crypto` module's hash, implemented concretely)

Words are `Nat` kept below `2 ^ 32` by explicit `% 2 ^ 32`. -/

/-- Word modulus. -/
def m32 : Nat := 4294967296

/-- 32-bit right rotation (inputs below `m32`). -/
def rotr32 (n x : Nat) : Nat :=
  (x >>> n ||| x <<< (32 - n)) % m32

/-- Bitwise complement on 32-bit words. -/
def not32 (x : Nat) : Nat := 4294967295 ^^^ x

/-- SHA-256 round constants. -/
def sha256K : List Nat :=
  [1116352408, 1899447441, 3049323471, 3921009573, 961987163,
   1508970993, 2453635748, 2870763221, 3624381080, 310598401,
   607225278, 1426881987, 1925078388, 2162078206, 2614888103,
   3248222580, 3835390401, 4022224774, 264347078, 604807628,
   770255983, 1249150122, 1555081692, 1996064986, 2554220882,
   2821834349, 2952996808, 3210313671, 3336571891, 3584528711,
   113926993, 338241895, 666307205, 773529912, 1294757372,
   1396182291, 1695183700, 1986661051, 2177026350, 2456956037,
   2730485921, 2820302411, 3259730800, 3345764771, 3516065817,
   3600352804, 4094571909, 275423344, 430227734, 506948616,
   659060556, 883997877, 958139571, 1322822218, 1537002063,
   1747873779, 1955562222, 2024104815, 2227730452, 2361852424,
   2428436474, 2756734187, 3204031479, 3329325298]

/-- The eight working words of the compression state. -/
structure H8 where
  a : Nat
  b : Nat
  c : Nat
  d : Nat
  e : Nat
  f : Nat
  g : Nat
  h : Nat

/-- SHA-256 initial hash value. -/
def sha256Init : H8 :=
  ⟨1779033703, 3144134277, 1013904242,
   2773480762, 1359893119, 2600822924,
   528734635, 1541459225⟩

/-- One compression round with round constant `k` and schedule word `w`. -/
def sha256Round (st : H8) (k w : Nat) : H8 :=
  let s1 := rotr32 6 st.e ^^^ rotr32 11 st.e ^^^ rotr32 25 st.e
  let ch := (st.e &&& st.f) ^^^ (not32 st.e &&& st.g)
  let t1 := (st.h + s1 + ch + k + w) % m32
  let s0 := rotr32 2 st.a ^^^ rotr32 13 st.a ^^^ rotr32 22 st.a
  let maj := (st.a &&& st.b) ^^^ (st.a &&& st.c) ^^^ (st.b &&& st.c)
  let t2 := (s0 + maj) % m32
  ⟨(t1 + t2) % m32, st.a, st.b, st.c, (st.d + t1) % m32, st.e, st.f, st.g⟩

/-- Run the 64 rounds over paired constants and schedule words. -/
def sha256Rounds : List (Nat × Nat) → H8 → H8
  | [], st => st
  | (k, w) :: rest, st => sha256Rounds rest (sha256Round st k w)

/-- Grow the message schedule by one word; `ws` is the schedule so far,
most recent word first. -/
def sha256NextW (ws : List Nat) : Nat :=
  let w2 := ws.getD 1 0
  let w7 := ws.getD 6 0
  let w15 := ws.getD 14 0
  let w16 := ws.getD 15 0
  let sig0 := rotr32 7 w15 ^^^ rotr32 18 w15 ^^^ (w15 >>> 3)
  let sig1 := rotr32 17 w2 ^^^ rotr32 19 w2 ^^^ (w2 >>> 10)
  (sig1 + w7 + sig0 + w16) % m32

/-- Extend a reversed schedule by `n` words. -/
def sha256Extend : Nat → List Nat → List Nat
  | 0, ws => ws
  | n + 1, ws => sha256Extend n (sha256NextW ws :: ws)

/-- Compress one 16-word block into the running hash. -/
def sha256Compress (st : H8) (block : List Nat) : H8 :=
  let schedule := (sha256Extend 48 block.reverse).reverse
  let r := sha256Rounds (sha256K.zip schedule) st
  ⟨(st.a + r.a) % m32, (st.b + r.b) % m32, (st.c + r.c) % m32,
   (st.d + r.d) % m32, (st.e + r.e) % m32, (st.f + r.f) % m32,
   (st.g + r.g) % m32, (st.h + r.h) % m32⟩

/-- Big-endian words from bytes, four at a time. -/
def bytesToWords : List Nat → List Nat
  | b0 :: b1 :: b2 :: b3 :: rest =>
    (((b0 * 256 + b1) * 256 + b2) * 256 + b3) :: bytesToWords rest
  | _ => []

/-- Split a word list into 16-word blocks. -/
def wordBlocks : List Nat → List (List Nat)
  | w0 :: w1 :: w2 :: w3 :: w4 :: w5 :: w6 :: w7 ::
    w8 :: w9 :: w10 :: w11 :: w12 :: w13 :: w14 :: w15 :: rest =>
    [w0, w1, w2, w3, w4, w5, w6, w7,
     w8, w9, w10, w11, w12, w13, w14, w15] :: wordBlocks rest
  | _ => []

/-- Big-endian 64-bit length field. -/
def be64 (n : Nat) : List Nat :=
  [n / 72057594037927936 % 256, n / 281474976710656 % 256,
   n / 1099511627776 % 256, n / 4294967296 % 256,
   n / 16777216 % 256, n / 65536 % 256, n / 256 % 256, n % 256]

/-- SHA-256 padding: `0x80`, zeros to 56 mod 64, then the bit length. -/
def sha256Pad (msg : List Nat) : List Nat :=
  let len := msg.length
  msg ++ [0x80] ++ List.replicate ((119 - len % 64) % 64) 0 ++ be64 (8 * len)

/-- Fold the compression function over all blocks. -/
def sha256Blocks : List (List Nat) → H8 → H8
  | [], st => st
  | blk :: rest, st => sha256Blocks rest (sha256Compress st blk)

/-- A 32-bit word as four big-endian bytes. -/
def wordBytes (w : Nat) : List Nat :=
  [w / 16777216 % 256, w / 65536 % 256, w / 256 % 256, w % 256]

/-- The final state as 32 digest bytes. -/
def digestBytes (st : H8) : List Nat :=
  wordBytes st.a ++ wordBytes st.b ++ wordBytes st.c ++ wordBytes st.d ++
  wordBytes st.e ++ wordBytes st.f ++ wordBytes st.g ++ wordBytes st.h

/-- SHA-256 of a byte string. -/
def sha256 (msg : List Nat) : List Nat :=
  digestBytes (sha256Blocks (wordBlocks (bytesToWords (sha256Pad msg))) sha256Init)

/-- HMAC-SHA256 (`crypto.createHmac('sha256', key)`). -/
def hmacSha256 (key msg : List Nat) : List Nat :=
  let k0 := if 64 < key.length then sha256 key else key
  let kp := k0 ++ List.replicate (64 - k0.length) 0
  sha256 ((kp.map (Nat.xor 0x5c)) ++ sha256 ((kp.map (Nat.xor 0x36)) ++ msg))

/-- One lower-case hex digit: `0`–`9` then `a`–`f`. -/
def hexDigit (n : Nat) : Char :=
  if n % 16 < 10 then Char.ofNat (48 + n % 16) else Char.ofNat (87 + n % 16)

/-- Lower-case hex characters of a byte string (`.digest('hex')`). -/
def hexChars : List Nat → List Char
  | [] => []
  | b :: bs => hexDigit (b / 16) :: hexDigit (b % 16) :: hexChars bs

/-- Lower-case hex encoding of a byte string. -/
def hexOfBytes (bs : List Nat) : String :=
  String.mk (hexChars bs)

/-! ## Ticket ledger — user records and the credit operation

User records as stored under `/users`; the collection is an association
list from child key to record, in the order the store returns children.
An empty list models a path with no data (`snapshot.exists()` false /
`null` body). -/

/-- A user record.  `ticketsAvailable` is a JS number (here `Int`);
`lastRedemptionYear` is `null` or a year. -/
structure User where
  username : String
  ticketsAvailable : Int
  gamesClaimed : List String
  lastRedemptionYear : Option Int
deriving DecidableEq, Repr

/-- The `/users` collection. -/
abbrev UserStore := List (String × User)

/-- The webhook's case-insensitive scan for a user
(`user && user.username && user.username.toLowerCase() === normalized`):
first record whose username is truthy (non-empty) and lower-cases to the
target. -/
def findUserWeb : UserStore → String → Option (String × User)
  | [], _ => none
  | (k, u) :: rest, target =>
    if u.username ≠ "" ∧ toLowerStr u.username = target then some (k, u)
    else findUserWeb rest target

/-- JS `parseInt(s)`: optional whitespace, optional sign, then leading
decimal digits; `NaN` (here `none`) when no digit follows. -/
def parseJsInt (s : String) : Option Int :=
  let t := s.data.dropWhile jsWhite
  let (neg, t) : Bool × List Char :=
    match t with
    | '-' :: rest => (true, rest)
    | '+' :: rest => (false, rest)
    | _ => (false, t)
  let digits := t.takeWhile Char.isDigit
  if digits = [] then none
  else
    let n : Nat := digits.foldl (fun acc c => 10 * acc + (c.toNat - 48)) 0
    some (if neg then -(n : Int) else (n : Int))

/-- `Math.max` over the parsed keys (callers guard non-emptiness). -/
def maxKey : List Int → Int
  | [] => 0
  | k :: rest => rest.foldl max k

/-- `PUT /users/{k}`: replace the record at `k`, or append a new child. -/
def putUser (users : UserStore) (k : String) (u : User) : UserStore :=
  if users.any (fun e => e.1 = k) then
    users.map (fun e => if e.1 = k then (k, u) else e)
  else
    users ++ [(k, u)]

/-- `PATCH /users/{k}` with an update of some fields. -/
def patchUser (users : UserStore) (k : String) (f : User → User) : UserStore :=
  users.map (fun e => if e.1 = k then (e.1, f e.2) else e)

/-- Result of `getOrCreateUser`: the (possibly extended) store and the
key and record found or created. -/
structure GOCResult where
  users : UserStore
  key : String
  user : User

/-- `getOrCreateUser(username)`: case-insensitive linear scan; when
absent, create `{username: normalized, ticketsAvailable: 0,
gamesClaimed: [], lastRedemptionYear: null}` under key
`max(numeric keys) + 1` (or `1`). -/
def getOrCreateUser (users : UserStore) (username : String) : GOCResult :=
  let normalized := toLowerStr username
  match findUserWeb users normalized with
  | some (k, u) => ⟨users, k, u⟩
  | none =>
    let newUser : User := ⟨normalized, 0, [], none⟩
    let existingKeys := (users.map (fun e => e.1)).filterMap parseJsInt
    let nextKey : Int :=
      if existingKeys.length > 0 then maxKey existingKeys + 1 else 1
    ⟨putUser users (toString nextKey) newUser, toString nextKey, newUser⟩

/-- Outcome of `addTicketToUser`. -/
inductive AddOutcome
  | success (ticketsAvailable : Int)
  | alreadyRedeemed
deriving DecidableEq, Repr

/-- `addTicketToUser(username)`: find or create the user; reject when
`lastRedemptionYear === currentYear`; otherwise patch the record with
one more ticket and the current year. -/
def addTicketToUser (currentYear : Int) (users : UserStore) (username : String) :
    UserStore × AddOutcome :=
  let r := getOrCreateUser users username
  if r.user.lastRedemptionYear = some currentYear then
    (r.users, .alreadyRedeemed)
  else
    let newTickets := r.user.ticketsAvailable + 1
    (patchUser r.users r.key
       (fun u => { u with ticketsAvailable := newTickets,
                          lastRedemptionYear := some currentYear }),
     .success newTickets)

/-! ## Webhook handler -/

/-- The environment variables the function reads. -/
structure Env where
  twitchWebhookSecret : Option String
  viteFirebaseDatabaseUrl : Option String
  firebaseDatabaseUrl : Option String
deriving DecidableEq, Repr

/-- `VITE_FIREBASE_DATABASE_URL || FIREBASE_DATABASE_URL`. -/
def Env.databaseUrl (env : Env) : Option String :=
  jsOr env.viteFirebaseDatabaseUrl env.firebaseDatabaseUrl

/-- The four Twitch EventSub headers (absent = `undefined`). -/
structure Headers where
  messageId : Option String
  timestamp : Option String
  signature : Option String
  messageType : Option String
deriving DecidableEq, Repr

/-- `payload.subscription`. -/
structure Subscription where
  type : String
deriving DecidableEq, Repr

/-- `payload.event` of a redemption notification (`reward.title`,
`user_login`, `user_name`; a present event is assumed to carry them). -/
structure Redemption where
  rewardTitle : String
  userLogin : String
  userName : String
deriving DecidableEq, Repr

/-- The parsed JSON envelope; absent JSON fields are `none`. -/
structure Payload where
  challenge : Option String
  subscription : Option Subscription
  event : Option Redemption
deriving DecidableEq, Repr

/-- An incoming request.  `parsedBody` is the result of `JSON.parse`
on `body` (`none`: the parse throws); JSON parsing itself is external
to this repository and is modelled as this oracle field. -/
structure Event where
  headers : Headers
  body : String
  parsedBody : Option Payload
deriving DecidableEq, Repr

/-- An HTTP response (`body` may be JS `undefined`). -/
structure Response where
  statusCode : Nat
  body : Option String
deriving DecidableEq, Repr

/-- A handler run ends in a response or an uncaught exception; either
way it carries the final `/users` store. -/
inductive HResult
  | ok (resp : Response) (users : UserStore)
  | thrown (users : UserStore)
deriving DecidableEq, Repr

/-- The configured reward title. -/
def REWARD_TITLE : String := "Redeem a Free Game!"

/-- The redemption subscription type. -/
def REDEMPTION_TYPE : String := "channel.channel_points_custom_reward_redemption.add"

/-- `crypto.timingSafeEqual`: throws on unequal buffer lengths, else
constant-time byte equality. -/
def timingSafeEqual (a b : List Nat) : Except Unit Bool :=
  if a.length = b.length then .ok (decide (a = b)) else .error ()

/-- `verifySignature`: recompute
`"sha256=" + hex(HMAC-SHA256(secret, messageId + timestamp + body))`
and compare byte-wise with the supplied signature. -/
def verifySignature (messageId timestamp body signature secret : String) :
    Except Unit Bool :=
  let message := messageId ++ timestamp ++ body
  let expected := "sha256=" ++ hexOfBytes (hmacSha256 (utf8Str secret) (utf8Str message))
  timingSafeEqual (utf8Str expected) (utf8Str signature)

/-- The expected signature header value for given inputs. -/
def expectedSignature (secret messageId timestamp body : String) : String :=
  "sha256=" ++ hexOfBytes (hmacSha256 (utf8Str secret) (utf8Str (messageId ++ timestamp ++ body)))

/-- Message processing after the configuration and signature gates:
parse the body and dispatch on the message type.  Field accesses that
would raise a `TypeError` on a missing object yield `.thrown`. -/
def processMessage (currentYear : Int) (users : UserStore) (ev : Event) : HResult :=
  match ev.parsedBody with
  | none => .thrown users
  | some payload =>
    if ev.headers.messageType = some "webhook_callback_verification" then
      .ok ⟨200, payload.challenge⟩ users
    else if ev.headers.messageType = some "revocation" then
      match payload.subscription with
      | none => .thrown users
      | some _ => .ok ⟨204, some ""⟩ users
    else if ev.headers.messageType = some "notification" then
      match payload.subscription with
      | none => .thrown users
      | some sub =>
        if sub.type = REDEMPTION_TYPE then
          match payload.event with
          | none => .thrown users
          | some red =>
            .ok ⟨204, some ""⟩
              (if red.rewardTitle = REWARD_TITLE then
                 (addTicketToUser currentYear users red.userLogin).1
               else users)
        else .ok ⟨204, some ""⟩ users
    else .ok ⟨200, some "OK"⟩ users

/-- The exported `handler(event)`: configuration checks, then — only
when the signature header is truthy — signature verification, then
message processing. -/
def handler (env : Env) (currentYear : Int) (users : UserStore) (ev : Event) : HResult :=
  if ¬ jsTruthy env.twitchWebhookSecret then
    .ok ⟨500, some "Server configuration error"⟩ users
  else if ¬ jsTruthy env.databaseUrl then
    .ok ⟨500, some "Server configuration error"⟩ users
  else
    let secret := jsStringOf env.twitchWebhookSecret
    if jsTruthy ev.headers.signature then
      match verifySignature (jsStringOf ev.headers.messageId)
          (jsStringOf ev.headers.timestamp) ev.body
          (jsStringOf ev.headers.signature) secret with
      | .error _ => .thrown users
      | .ok false => .ok ⟨403, some "Invalid signature"⟩ users
      | .ok true => processMessage currentYear users ev
    else
      processMessage currentYear users ev

/-! ## Front-end claim flow (`App.tsx`)

The `/games` collection and the component state that
`handleVerifyUsername` reads and writes.  Only the fields the claim
flow touches are modelled; transient animation state (the shake
timeout) and the cosmetic rendering are out of scope. -/

/-- A game record as stored under `/games/{id}`. -/
structure GameRecord where
  name : String
  claimed : Bool
  claimedBy : Option String
  giftLink : String
deriving DecidableEq, Repr

/-- The remote store as seen by the claim flow. -/
structure Store where
  games : List (String × GameRecord)
  users : UserStore
deriving DecidableEq, Repr

/-- `get(ref(db, 'games/' + gameId))`: `none` models a non-existent
snapshot. -/
def findGame : List (String × GameRecord) → String → Option GameRecord
  | [], _ => none
  | (k, g) :: rest, gameId => if k = gameId then some g else findGame rest gameId

/-- `PATCH /games/{id}`. -/
def patchGame (games : List (String × GameRecord)) (gameId : String)
    (f : GameRecord → GameRecord) : List (String × GameRecord) :=
  games.map (fun e => if e.1 = gameId then (e.1, f e.2) else e)

/-- The claim flow's scan over `/users`
(`Object.keys(users).find(key => users[key].username.toLowerCase() === normalized)`). -/
def findUserApp : UserStore → String → Option (String × User)
  | [], _ => none
  | (k, u) :: rest, target =>
    if toLowerStr u.username = target then some (k, u) else findUserApp rest target

/-- A game in the component's `games` array (the `Game` interface
fields the claim flow reads or writes). -/
structure ClientGame where
  id : String
  name : String
  claimed : Bool
  verifying : Bool
  username : String
  errorMessage : Option String
  claimedBy : Option String
  giftLink : String
deriving DecidableEq, Repr

/-- The component state `handleVerifyUsername` touches. -/
structure ClientState where
  games : List ClientGame
  usernameVerification : List (String × String)
  justClaimedGameId : Option String
  tempUsername : String
  localTempUsername : Option String
deriving DecidableEq, Repr

/-- `setGames(games => games.map(... errorMessage ...))`. -/
def setGameError (games : List ClientGame) (gameId msg : String) : List ClientGame :=
  games.map (fun g => if g.id = gameId then { g with errorMessage := some msg } else g)

/-- Read `usernameVerification[gameId]`. -/
def getAssoc : List (String × String) → String → Option String
  | [], _ => none
  | (k, v) :: rest, key => if k = key then some v else getAssoc rest key

/-- `{...prev, [gameId]: value}`. -/
def setAssoc (l : List (String × String)) (key value : String) : List (String × String) :=
  if l.any (fun e => e.1 = key) then
    l.map (fun e => if e.1 = key then (key, value) else e)
  else
    l ++ [(key, value)]

/-- `isVerifiedUser`: the claimed-by comparison for code disclosure
(`game.claimedBy?.toLowerCase() === usernameVerification[game.id]?.toLowerCase()`;
JS `undefined === undefined` is true, hence `Option` equality). -/
def isVerifiedUser (verification : List (String × String)) (claimedBy : Option String)
    (gameId : String) : Bool :=
  claimedBy.map toLowerStr == (getAssoc verification gameId).map toLowerStr

/-- Abort helper: leave the store alone and set a game's inline error
message. -/
def withError (store : Store) (st : ClientState) (gameId msg : String) :
    Store × ClientState :=
  (store, { st with games := setGameError st.games gameId msg })

/-- `handleVerifyUsername(gameId, username)`: the claim flow.  Returns
the store and component state after the call completes. -/
def handleVerifyUsername (store : Store) (st : ClientState) (gameId : String)
    (username : Option String) : Store × ClientState :=
  if ¬ jsTruthy (username.map jsTrim) then
    withError store st gameId "Please enter a valid username."
  else
    let normalized := toLowerStr (jsTrim (jsStringOf username))
    let st := { st with tempUsername := normalized, localTempUsername := some normalized }
    match findGame store.games gameId with
    | none => withError store st gameId "Game not found in the database."
    | some gameData =>
      if gameData.claimed then
        if some normalized = gameData.claimedBy.map toLowerStr then
          withError store st gameId "This game has already been claimed by you."
        else
          withError store st gameId "This game has already been claimed by another user."
      else
        match store.users with
        | [] => withError store st gameId "Error fetching user data from the database."
        | _ :: _ =>
          match findUserApp store.users normalized with
          | some (userKey, user) =>
            if user.ticketsAvailable > 0 then
              match (st.games.find? (fun g => g.id = gameId)).map (fun g => g.name) with
              | some gameName =>
                if gameName = "" then
                  withError store st gameId "Game name not found for claiming."
                else
                  let newTicketCount := user.ticketsAvailable - 1
                  let newGamesClaimed := user.gamesClaimed ++ [gameName]
                  let users1 := patchUser store.users userKey
                    (fun u => { u with ticketsAvailable := newTicketCount,
                                       gamesClaimed := newGamesClaimed })
                  let games1 := patchGame store.games gameId
                    (fun g => { g with claimed := true, claimedBy := some normalized })
                  (⟨games1, users1⟩,
                   { st with
                     games := st.games.map (fun g =>
                       if g.id = gameId then
                         { g with claimed := true, verifying := false,
                                  errorMessage := some "", claimedBy := some normalized }
                       else g),
                     usernameVerification := setAssoc st.usernameVerification gameId normalized,
                     justClaimedGameId := some gameId })
              | none => withError store st gameId "Game name not found for claiming."
            else
              withError store st gameId "You do not have enough tickets to claim this game."
          | none =>
            withError store st gameId "You do not have enough tickets to claim this game."

/-! ## Character and string lemmas -/

theorem char_toNat_ofNat (n : Nat) (h : n.isValidChar) : (Char.ofNat n).toNat = n := by
  unfold Char.ofNat
  rw [dif_pos h]
  rfl

theorem char_toNat_inj {c d : Char} (h : c.toNat = d.toNat) : c = d := by
  exact Char.ext (UInt32.ext h)

theorem toLower_toNat (c : Char) :
    c.toLower.toNat = if c.toNat ≥ 65 ∧ c.toNat ≤ 90 then c.toNat + 32 else c.toNat := by
  unfold Char.toLower
  by_cases h : c.toNat ≥ 65 ∧ c.toNat ≤ 90
  · rw [if_pos h, if_pos h]
    exact char_toNat_ofNat _ (Or.inl (by omega))
  · rw [if_neg h, if_neg h]

theorem toLower_idem (c : Char) : c.toLower.toLower = c.toLower := by
  apply char_toNat_inj
  by_cases h : c.toNat ≥ 65 ∧ c.toNat ≤ 90
  · simp only [toLower_toNat, if_pos h]
    rw [if_neg (by omega)]
  · simp only [toLower_toNat, if_neg h]

theorem toLowerStr_data (s : String) : (toLowerStr s).data = s.data.map Char.toLower := rfl

theorem toLowerStr_idem (s : String) : toLowerStr (toLowerStr s) = toLowerStr s := by
  apply String.ext
  simp only [toLowerStr_data]
  rw [List.map_map]
  exact List.map_congr_left (fun c _ => toLower_idem c)

theorem string_eq_empty_iff (s : String) : s = "" ↔ s.data = [] := by
  constructor
  · intro h; rw [h]
  · intro h; apply String.ext; rw [h]

theorem toLowerStr_ne_empty {s : String} (h : s ≠ "") : toLowerStr s ≠ "" := by
  intro hc
  apply h
  rw [string_eq_empty_iff] at hc ⊢
  rw [toLowerStr_data] at hc
  exact List.map_eq_nil_iff.mp hc

/-! ## UTF-8 lemmas -/

theorem utf8Char_ascii {c : Char} (h : c.toNat < 128) : utf8Char c = [c.toNat] := by
  unfold utf8Char
  rw [if_pos h]

theorem utf8Char_nonascii_head {c : Char} (h : ¬ c.toNat < 128) :
    ∃ b rest, utf8Char c = b :: rest ∧ 128 ≤ b := by
  unfold utf8Char
  rw [if_neg h]
  by_cases h2 : c.toNat < 2048
  · rw [if_pos h2]
    exact ⟨_, _, rfl, by omega⟩
  · rw [if_neg h2]
    by_cases h3 : c.toNat < 65536
    · rw [if_pos h3]
      exact ⟨_, _, rfl, by omega⟩
    · rw [if_neg h3]
      exact ⟨_, _, rfl, by omega⟩

theorem utf8Char_ne_nil (c : Char) : utf8Char c ≠ [] := by
  by_cases h : c.toNat < 128
  · rw [utf8Char_ascii h]; simp
  · obtain ⟨b, rest, he, _⟩ := utf8Char_nonascii_head h
    rw [he]; simp

theorem utf8Chars_ascii {l : List Char} (h : ∀ c ∈ l, c.toNat < 128) :
    utf8Chars l = l.map Char.toNat := by
  induction l with
  | nil => rfl
  | cons c cs ih =>
    show utf8Char c ++ utf8Chars cs = _
    rw [utf8Char_ascii (h c (by simp)), ih (fun d hd => h d (by simp [hd]))]
    rfl

theorem utf8Chars_nil_iff (l : List Char) : utf8Chars l = [] ↔ l = [] := by
  cases l with
  | nil => simp [utf8Chars]
  | cons c cs =>
    simp only [utf8Chars]
    constructor
    · intro h
      exact absurd (List.append_eq_nil.mp h).1 (utf8Char_ne_nil c)
    · intro h; exact absurd h (by simp)

theorem utf8Chars_inj_ascii {l₁ : List Char} (h : ∀ c ∈ l₁, c.toNat < 128) :
    ∀ l₂, utf8Chars l₁ = utf8Chars l₂ → l₁ = l₂ := by
  induction l₁ with
  | nil =>
    intro l₂ he
    exact ((utf8Chars_nil_iff l₂).mp he.symm).symm
  | cons c cs ih =>
    intro l₂ he
    cases l₂ with
    | nil =>
      exact absurd ((utf8Chars_nil_iff (c :: cs)).mp he) (by simp)
    | cons d ds =>
      have hc : c.toNat < 128 := h c (by simp)
      have he2 : utf8Char c ++ utf8Chars cs = utf8Char d ++ utf8Chars ds := he
      rw [utf8Char_ascii hc] at he2
      by_cases hd : d.toNat < 128
      · rw [utf8Char_ascii hd] at he2
        simp only [List.cons_append, List.nil_append, List.cons.injEq] at he2
        have : c = d := char_toNat_inj he2.1
        rw [this, ih (fun e hee => h e (by simp [hee])) ds he2.2]
      · obtain ⟨b, rest, hb, hge⟩ := utf8Char_nonascii_head hd
        rw [hb] at he2
        simp only [List.cons_append, List.nil_append, List.cons.injEq] at he2
        omega

theorem utf8Str_inj_ascii {a b : String} (ha : ∀ c ∈ a.data, c.toNat < 128)
    (h : utf8Str a = utf8Str b) : a = b :=
  String.ext (utf8Chars_inj_ascii ha b.data h)

theorem utf8Str_eq_nil_iff (s : String) : utf8Str s = [] ↔ s = "" := by
  rw [string_eq_empty_iff]
  exact utf8Chars_nil_iff s.data

/-! ## Hex and digest length lemmas -/

theorem hexDigit_lt (n : Nat) : (hexDigit n).toNat < 128 := by
  unfold hexDigit
  have h : n % 16 < 16 := Nat.mod_lt _ (by omega)
  by_cases h10 : n % 16 < 10
  · rw [if_pos h10, char_toNat_ofNat _ (Or.inl (by omega))]
    omega
  · rw [if_neg h10, char_toNat_ofNat _ (Or.inl (by omega))]
    omega

theorem hexChars_ascii (bs : List Nat) : ∀ c ∈ hexChars bs, c.toNat < 128 := by
  induction bs with
  | nil => intro c hc; exact absurd hc (by simp [hexChars])
  | cons b rest ih =>
    intro c hc
    simp only [hexChars, List.mem_cons] at hc
    rcases hc with h | h | h
    · rw [h]; exact hexDigit_lt _
    · rw [h]; exact hexDigit_lt _
    · exact ih c h

theorem hexChars_length (bs : List Nat) : (hexChars bs).length = 2 * bs.length := by
  induction bs with
  | nil => rfl
  | cons b rest ih =>
    simp only [hexChars, List.length_cons, ih]
    omega

theorem sha256_length (msg : List Nat) : (sha256 msg).length = 32 := rfl

theorem hmacSha256_length (key msg : List Nat) : (hmacSha256 key msg).length = 32 :=
  sha256_length _

theorem string_append_data (a b : String) : (a ++ b).data = a.data ++ b.data := rfl

theorem hexOfBytes_data (bs : List Nat) : (hexOfBytes bs).data = hexChars bs := rfl

theorem expectedSignature_data (secret messageId timestamp body : String) :
    (expectedSignature secret messageId timestamp body).data =
      "sha256=".data ++ hexChars (hmacSha256 (utf8Str secret)
        (utf8Str (messageId ++ timestamp ++ body))) := rfl

theorem expectedSignature_ascii (secret messageId timestamp body : String) :
    ∀ c ∈ (expectedSignature secret messageId timestamp body).data, c.toNat < 128 := by
  intro c hc
  rw [expectedSignature_data] at hc
  rcases List.mem_append.mp hc with h | h
  · revert h
    have : ∀ c ∈ "sha256=".data, c.toNat < 128 := by decide
    exact this c
  · exact hexChars_ascii _ c h

theorem expectedSignature_utf8_length (secret messageId timestamp body : String) :
    (utf8Str (expectedSignature secret messageId timestamp body)).length = 71 := by
  unfold utf8Str
  rw [utf8Chars_ascii (expectedSignature_ascii secret messageId timestamp body)]
  rw [List.length_map, expectedSignature_data, List.length_append, hexChars_length,
    hmacSha256_length]
  rfl

theorem expectedSignature_ne_empty (secret messageId timestamp body : String) :
    expectedSignature secret messageId timestamp body ≠ "" := by
  intro h
  have := expectedSignature_utf8_length secret messageId timestamp body
  rw [h] at this
  simp [utf8Str, utf8Chars] at this

/-! ## Store-scan lemmas -/

theorem findUserWeb_append_none {l₁ : UserStore} {t : String}
    (h : findUserWeb l₁ t = none) (l₂ : UserStore) :
    findUserWeb (l₁ ++ l₂) t = findUserWeb l₂ t := by
  induction l₁ with
  | nil => rfl
  | cons e rest ih =>
    obtain ⟨k, u⟩ := e
    simp only [findUserWeb, List.cons_append] at h ⊢
    split at h
    · exact absurd h (by simp)
    · next hne =>
      rw [if_neg hne]
      exact ih h

theorem findUserWeb_cons_match {k : String} {u : User} {t : String} (rest : UserStore)
    (hu : u.username ≠ "") (ht : toLowerStr u.username = t) :
    findUserWeb ((k, u) :: rest) t = some (k, u) := by
  simp only [findUserWeb]
  rw [if_pos ⟨hu, ht⟩]

theorem findUserWeb_patch {l : UserStore} {t k : String} {f : User → User}
    (hf : ∀ u, (f u).username = u.username) :
    findUserWeb (patchUser l k f) t =
      (findUserWeb l t).map (fun p => (p.1, if p.1 = k then f p.2 else p.2)) := by
  induction l with
  | nil => rfl
  | cons e rest ih =>
    obtain ⟨k', u⟩ := e
    simp only [patchUser, List.map_cons] at ih ⊢
    by_cases hk : k' = k
    · rw [if_pos hk]
      simp only [findUserWeb, hf u]
      split
      next hc => simp [hk]
      next hc => exact ih
    · rw [if_neg hk]
      simp only [findUserWeb]
      split
      next hc => simp [hk]
      next hc => exact ih

theorem findUserWeb_replace {l : UserStore} {t : String} (h : findUserWeb l t = none)
    (k : String) (u : User) (hu : u.username ≠ "") (ht : toLowerStr u.username = t) :
    findUserWeb (l.map (fun e => if e.1 = k then (k, u) else e)) t =
      if l.any (fun e => e.1 = k) then some (k, u) else none := by
  induction l with
  | nil => rfl
  | cons e rest ih =>
    obtain ⟨k', u'⟩ := e
    simp only [findUserWeb] at h
    split at h
    · exact absurd h (by simp)
    · next hne =>
      simp only [List.map_cons, List.any_cons]
      by_cases hk : k' = k
      · simp only [if_pos hk]
        rw [findUserWeb_cons_match _ hu ht]
        simp [hk]
      · rw [if_neg hk]
        simp only [findUserWeb]
        rw [if_neg hne, ih h]
        simp only [decide_eq_true_eq, hk, decide_False, Bool.false_or]

theorem findUserWeb_put_fresh {l : UserStore} {t : String} (h : findUserWeb l t = none)
    (k : String) (u : User) (hu : u.username ≠ "") (ht : toLowerStr u.username = t) :
    findUserWeb (putUser l k u) t = some (k, u) := by
  unfold putUser
  by_cases ha : l.any (fun e => e.1 = k)
  · rw [if_pos ha, findUserWeb_replace h k u hu ht, if_pos ha]
  · rw [if_neg ha, findUserWeb_append_none h, findUserWeb_cons_match _ hu ht]

theorem findUserApp_append_none {l₁ : UserStore} {t : String}
    (h : findUserApp l₁ t = none) (l₂ : UserStore) :
    findUserApp (l₁ ++ l₂) t = findUserApp l₂ t := by
  induction l₁ with
  | nil => rfl
  | cons e rest ih =>
    obtain ⟨k, u⟩ := e
    simp only [findUserApp, List.cons_append] at h ⊢
    split at h
    · exact absurd h (by simp)
    · next hne =>
      rw [if_neg hne]
      exact ih h

theorem findUserApp_cons_match {k : String} {u : User} {t : String} (rest : UserStore)
    (ht : toLowerStr u.username = t) :
    findUserApp ((k, u) :: rest) t = some (k, u) := by
  simp only [findUserApp]
  rw [if_pos ht]

/-! ## Handler branch lemmas -/

theorem processMessage_not_403 (year : Int) (users : UserStore) (ev : Event)
    {resp : Response} {users' : UserStore}
    (h : processMessage year users ev = .ok resp users') : resp.statusCode ≠ 403 := by
  unfold processMessage at h
  split at h
  · exact absurd h (by simp)
  · split at h
    · simp only [HResult.ok.injEq] at h
      rw [← h.1]
      simp
    · split at h
      · split at h
        · exact absurd h (by simp)
        · simp only [HResult.ok.injEq] at h
          rw [← h.1]
          simp
      · split at h
        · split at h
          · exact absurd h (by simp)
          · split at h
            · split at h
              · exact absurd h (by simp)
              · simp only [HResult.ok.injEq] at h
                rw [← h.1]
                simp
            · simp only [HResult.ok.injEq] at h
              rw [← h.1]
              simp
        · simp only [HResult.ok.injEq] at h
          rw [← h.1]
          simp

/-! ## Claim C1 -/

/-- C1: for every game whose `claimed` flag is already true, a claim
attempt (`handleVerifyUsername`) leaves the remote store — user records
and game records — untouched, so `claimedBy` never changes once set;
and for an actual (non-blank) username the inline message is the
already-claimed-by-you message exactly when the normalized input equals
the normalized stored `claimedBy`, and the claimed-by-another-user
message otherwise. -/
theorem claim1_already_claimed_abort (store : Store) (st : ClientState) (gameId : String)
    (username : Option String) (g : GameRecord)
    (hg : findGame store.games gameId = some g) (hc : g.claimed = true) :
    (handleVerifyUsername store st gameId username).1 = store ∧
    (∀ u, username = some u → jsTrim u ≠ "" →
      (handleVerifyUsername store st gameId username).2.games =
        setGameError st.games gameId
          (if some (toLowerStr (jsTrim u)) = g.claimedBy.map toLowerStr
           then "This game has already been claimed by you."
           else "This game has already been claimed by another user.")) := by
  unfold handleVerifyUsername
  by_cases ht : jsTruthy (username.map jsTrim)
  · rw [if_neg (by simp [ht])]
    simp only [hg, hc, jsStringOf]
    constructor
    · split
      next => split <;> rfl
      next hfalse => exact absurd trivial hfalse
    · intro u hu htrim
      subst hu
      simp only [jsStringOf]
      split
      next =>
        split
        next hcnd => rfl
        next hcnd => rfl
      next hfalse => exact absurd trivial hfalse
  · rw [if_pos (by simp [ht])]
    constructor
    · simp [withError]
    · intro u hu htrim
      rw [hu] at ht
      simp [jsTruthy, htrim] at ht

/-- C1 witness: a concrete claimed game; a re-claim by the claimant
(case-insensitively) mutates nothing and reports the
already-claimed-by-you message. -/
theorem claim1_already_claimed_abort_witness :
    (handleVerifyUsername
        ⟨[("g1", ⟨"Game One", true, some "Alice", "CODE"⟩)], [("1", ⟨"alice", 1, [], none⟩)]⟩
        ⟨[⟨"g1", "Game One", true, false, "", none, some "Alice", "CODE"⟩], [], none, "", none⟩
        "g1" (some "ALICE ")).1 =
      ⟨[("g1", ⟨"Game One", true, some "Alice", "CODE"⟩)], [("1", ⟨"alice", 1, [], none⟩)]⟩ ∧
    (handleVerifyUsername
        ⟨[("g1", ⟨"Game One", true, some "Alice", "CODE"⟩)], [("1", ⟨"alice", 1, [], none⟩)]⟩
        ⟨[⟨"g1", "Game One", true, false, "", none, some "Alice", "CODE"⟩], [], none, "", none⟩
        "g1" (some "ALICE ")).2.games =
      setGameError [⟨"g1", "Game One", true, false, "", none, some "Alice", "CODE"⟩] "g1"
        "This game has already been claimed by you." := by
  refine ⟨(claim1_already_claimed_abort
      ⟨[("g1", ⟨"Game One", true, some "Alice", "CODE"⟩)], [("1", ⟨"alice", 1, [], none⟩)]⟩
      ⟨[⟨"g1", "Game One", true, false, "", none, some "Alice", "CODE"⟩], [], none, "", none⟩
      "g1" (some "ALICE ") ⟨"Game One", true, some "Alice", "CODE"⟩ rfl rfl).1, ?_⟩
  have h := (claim1_already_claimed_abort
      ⟨[("g1", ⟨"Game One", true, some "Alice", "CODE"⟩)], [("1", ⟨"alice", 1, [], none⟩)]⟩
      ⟨[⟨"g1", "Game One", true, false, "", none, some "Alice", "CODE"⟩], [], none, "", none⟩
      "g1" (some "ALICE ") ⟨"Game One", true, some "Alice", "CODE"⟩ rfl rfl).2
      "ALICE " rfl (by decide)
  exact h.trans (by decide)

/-! ## Claim C2 -/

/-- C2 counterexample: with an *empty* user collection (a username that
certainly has no matching record) and an unclaimed game, the claim
attempt indeed writes nothing, but the reported message is the
user-data fetch error, not the "not enough tickets" error the claim
promises for every username with no matching record. -/
theorem claim2_counterexample :
    (handleVerifyUsername ⟨[("g1", ⟨"Game One", false, none, "CODE"⟩)], []⟩
        ⟨[⟨"g1", "Game One", false, false, "", none, none, "CODE"⟩], [], none, "", none⟩
        "g1" (some "alice")).1 =
      ⟨[("g1", ⟨"Game One", false, none, "CODE"⟩)], []⟩ ∧
    (handleVerifyUsername ⟨[("g1", ⟨"Game One", false, none, "CODE"⟩)], []⟩
        ⟨[⟨"g1", "Game One", false, false, "", none, none, "CODE"⟩], [], none, "", none⟩
        "g1" (some "alice")).2.games =
      setGameError [⟨"g1", "Game One", false, false, "", none, none, "CODE"⟩] "g1"
        "Error fetching user data from the database." ∧
    "Error fetching user data from the database." ≠
      "You do not have enough tickets to claim this game." := by decide

/-- C2 (amended): provided the user collection is non-empty and the
username is non-blank, a claim attempt by a user with no matching
record or with `ticketsAvailable ≤ 0` on an unclaimed game leaves the
store untouched and reports the "not enough tickets" message.  (With an
empty collection the code still writes nothing but reports a generic
fetch error — see the counterexample.) -/
theorem claim2_no_tickets_abort (store : Store) (st : ClientState) (gameId : String)
    (ustr : String) (g : GameRecord) (htrim : jsTrim ustr ≠ "")
    (hg : findGame store.games gameId = some g) (hc : g.claimed = false)
    (hne : store.users ≠ [])
    (hnot : ∀ k u, findUserApp store.users (toLowerStr (jsTrim ustr)) = some (k, u) →
      u.ticketsAvailable ≤ 0) :
    (handleVerifyUsername store st gameId (some ustr)).1 = store ∧
    (handleVerifyUsername store st gameId (some ustr)).2.games =
      setGameError st.games gameId "You do not have enough tickets to claim this game." := by
  unfold handleVerifyUsername
  rw [if_neg (by simp [jsTruthy, htrim])]
  simp only [hg, hc, jsStringOf]
  split
  next hclaimed => exact absurd hclaimed (by simp)
  next =>
    cases hu : store.users with
    | nil => exact absurd hu hne
    | cons a l =>
      rw [hu] at hnot
      cases hfa : findUserApp (a :: l) (toLowerStr (jsTrim ustr)) with
      | none => simp only [hfa]; exact ⟨rfl, rfl⟩
      | some p =>
        obtain ⟨k, u⟩ := p
        simp only [hfa]
        rw [if_neg (by have := hnot k u hfa; omega)]
        exact ⟨rfl, rfl⟩

/-- C2 witness: a concrete user with zero tickets attempting a claim on
an unclaimed game — nothing is written and the "not enough tickets"
message is reported. -/
theorem claim2_no_tickets_abort_witness :
    (handleVerifyUsername ⟨[("g1", ⟨"Game One", false, none, "CODE"⟩)],
        [("1", ⟨"bob", 0, [], none⟩)]⟩
        ⟨[⟨"g1", "Game One", false, false, "", none, none, "CODE"⟩], [], none, "", none⟩
        "g1" (some "bob")).1 =
      ⟨[("g1", ⟨"Game One", false, none, "CODE"⟩)], [("1", ⟨"bob", 0, [], none⟩)]⟩ ∧
    (handleVerifyUsername ⟨[("g1", ⟨"Game One", false, none, "CODE"⟩)],
        [("1", ⟨"bob", 0, [], none⟩)]⟩
        ⟨[⟨"g1", "Game One", false, false, "", none, none, "CODE"⟩], [], none, "", none⟩
        "g1" (some "bob")).2.games =
      setGameError [⟨"g1", "Game One", false, false, "", none, none, "CODE"⟩] "g1"
        "You do not have enough tickets to claim this game." :=
  claim2_no_tickets_abort
    ⟨[("g1", ⟨"Game One", false, none, "CODE"⟩)], [("1", ⟨"bob", 0, [], none⟩)]⟩
    ⟨[⟨"g1", "Game One", false, false, "", none, none, "CODE"⟩], [], none, "", none⟩
    "g1" "bob" ⟨"Game One", false, none, "CODE"⟩ (by decide) rfl rfl (by decide)
    (fun k u h => by cases h; decide)

/-! ## Claim C3 -/

/-- C3: a successful claim — unclaimed game, user found with
`ticketsAvailable > 0`, and the game name available locally — patches
the found user record with exactly one ticket fewer and the game's name
appended to `gamesClaimed`, patches the game record to
`claimed = true, claimedBy = normalized username`, writes the cleared
(empty) error message into the client's game entry, and the resulting
ticket count is non-negative. -/
theorem claim3_successful_claim (store : Store) (st : ClientState) (gameId ustr : String)
    (g : GameRecord) (k : String) (user : User) (gname : String)
    (htrim : jsTrim ustr ≠ "")
    (hg : findGame store.games gameId = some g) (hc : g.claimed = false)
    (hfind : findUserApp store.users (toLowerStr (jsTrim ustr)) = some (k, user))
    (htk : 0 < user.ticketsAvailable)
    (hname : (st.games.find? (fun cg => cg.id = gameId)).map (fun cg => cg.name) = some gname)
    (hgn : gname ≠ "") :
    (handleVerifyUsername store st gameId (some ustr)).1.users =
      patchUser store.users k (fun u =>
        { u with ticketsAvailable := user.ticketsAvailable - 1,
                 gamesClaimed := user.gamesClaimed ++ [gname] }) ∧
    (handleVerifyUsername store st gameId (some ustr)).1.games =
      patchGame store.games gameId (fun gr =>
        { gr with claimed := true, claimedBy := some (toLowerStr (jsTrim ustr)) }) ∧
    (handleVerifyUsername store st gameId (some ustr)).2.games =
      st.games.map (fun cg =>
        if cg.id = gameId then
          { cg with claimed := true, verifying := false,
                    errorMessage := some "", claimedBy := some (toLowerStr (jsTrim ustr)) }
        else cg) ∧
    0 ≤ user.ticketsAvailable - 1 := by
  unfold handleVerifyUsername
  rw [if_neg (by simp [jsTruthy, htrim])]
  simp only [hg, hc, jsStringOf]
  split
  next hclaimed => exact absurd hclaimed (by simp)
  next =>
    cases hu : store.users with
    | nil => rw [hu] at hfind; exact absurd hfind (by simp [findUserApp])
    | cons a l =>
      rw [hu] at hfind
      simp only [hfind]
      rw [if_pos htk]
      simp only [hname]
      rw [if_neg hgn]
      rw [← hu]
      exact ⟨rfl, rfl, rfl, by omega⟩

/-- C3 witness: Alice (one ticket) claims the unclaimed `g1`; the
effects are exactly the two patches and the client-side update. -/
theorem claim3_successful_claim_witness :
    (handleVerifyUsername ⟨[("g1", ⟨"Game One", false, none, "CODE"⟩)],
        [("1", ⟨"alice", 1, [], some 2024⟩)]⟩
        ⟨[⟨"g1", "Game One", false, false, "", none, none, "CODE"⟩], [], none, "", none⟩
        "g1" (some "Alice ")).1.users =
      patchUser [("1", ⟨"alice", 1, [], some 2024⟩)] "1" (fun u =>
        { u with ticketsAvailable := 0, gamesClaimed := ["Game One"] }) ∧
    (handleVerifyUsername ⟨[("g1", ⟨"Game One", false, none, "CODE"⟩)],
        [("1", ⟨"alice", 1, [], some 2024⟩)]⟩
        ⟨[⟨"g1", "Game One", false, false, "", none, none, "CODE"⟩], [], none, "", none⟩
        "g1" (some "Alice ")).1.games =
      patchGame [("g1", ⟨"Game One", false, none, "CODE"⟩)] "g1" (fun gr =>
        { gr with claimed := true, claimedBy := some "alice" }) ∧
    (0 : Int) ≤ 0 := by
  have h := claim3_successful_claim
    ⟨[("g1", ⟨"Game One", false, none, "CODE"⟩)], [("1", ⟨"alice", 1, [], some 2024⟩)]⟩
    ⟨[⟨"g1", "Game One", false, false, "", none, none, "CODE"⟩], [], none, "", none⟩
    "g1" "Alice " ⟨"Game One", false, none, "CODE"⟩ "1" ⟨"alice", 1, [], some 2024⟩
    "Game One" (by decide) rfl rfl (by decide) (by decide) (by decide) (by decide)
  refine ⟨h.1.trans (by decide), h.2.1.trans (by decide), by decide⟩

/-! ## Claim C10 -/

/-- C10: even with an unclaimed game record and a user holding tickets,
the claim succeeds only if the client's locally loaded games list
supplies a (non-empty) name for the game id; otherwise the flow aborts
with the "Game name not found for claiming." message before either
store write. -/
theorem claim10_local_name_required (store : Store) (st : ClientState) (gameId ustr : String)
    (g : GameRecord) (k : String) (user : User)
    (htrim : jsTrim ustr ≠ "")
    (hg : findGame store.games gameId = some g) (hc : g.claimed = false)
    (hfind : findUserApp store.users (toLowerStr (jsTrim ustr)) = some (k, user))
    (htk : 0 < user.ticketsAvailable)
    (hname : (st.games.find? (fun cg => cg.id = gameId)).map (fun cg => cg.name) = none ∨
             (st.games.find? (fun cg => cg.id = gameId)).map (fun cg => cg.name) = some "") :
    (handleVerifyUsername store st gameId (some ustr)).1 = store ∧
    (handleVerifyUsername store st gameId (some ustr)).2.games =
      setGameError st.games gameId "Game name not found for claiming." := by
  unfold handleVerifyUsername
  rw [if_neg (by simp [jsTruthy, htrim])]
  simp only [hg, hc, jsStringOf]
  split
  next hclaimed => exact absurd hclaimed (by simp)
  next =>
    cases hu : store.users with
    | nil => rw [hu] at hfind; exact absurd hfind (by simp [findUserApp])
    | cons a l =>
      rw [hu] at hfind
      simp only [hfind]
      rw [if_pos htk]
      rcases hname with hn | hn
      · simp only [hn]
        exact ⟨rfl, rfl⟩
      · simp only [hn]
        rw [if_pos trivial]
        exact ⟨rfl, rfl⟩

/-- C10 witness: the store has the unclaimed game and a ticketed user,
but the client games list is empty — the claim aborts with the missing
name message and writes nothing. -/
theorem claim10_local_name_required_witness :
    (handleVerifyUsername ⟨[("g1", ⟨"Game One", false, none, "CODE"⟩)],
        [("1", ⟨"alice", 1, [], none⟩)]⟩
        ⟨[], [], none, "", none⟩ "g1" (some "alice")).1 =
      ⟨[("g1", ⟨"Game One", false, none, "CODE"⟩)], [("1", ⟨"alice", 1, [], none⟩)]⟩ ∧
    (handleVerifyUsername ⟨[("g1", ⟨"Game One", false, none, "CODE"⟩)],
        [("1", ⟨"alice", 1, [], none⟩)]⟩
        ⟨[], [], none, "", none⟩ "g1" (some "alice")).2.games =
      setGameError [] "g1" "Game name not found for claiming." :=
  claim10_local_name_required
    ⟨[("g1", ⟨"Game One", false, none, "CODE"⟩)], [("1", ⟨"alice", 1, [], none⟩)]⟩
    ⟨[], [], none, "", none⟩ "g1" "alice" ⟨"Game One", false, none, "CODE"⟩
    "1" ⟨"alice", 1, [], none⟩ (by decide) rfl rfl (by decide) (by decide)
    (Or.inl (by decide))

/-! ## Claim C4 -/

/-- C4 counterexample: for the empty username the second credit call
does *not* return `already_redeemed_this_year` — the freshly created
record (whose stored username is the empty string) is invisible to the
truthiness-guarded scan, so a second record is created and credited:
two calls, two increments. -/
theorem claim4_counterexample :
    (addTicketToUser 2024 (addTicketToUser 2024 [] "").1 "").2 = .success 1 ∧
    (addTicketToUser 2024 (addTicketToUser 2024 [] "").1 "").2 ≠ .alreadyRedeemed ∧
    (addTicketToUser 2024 (addTicketToUser 2024 [] "").1 "").1.length = 2 := by decide

/-- C4 (amended): for every *non-empty* username whose record (if any)
has not yet redeemed this year, two sequential credit calls in the same
calendar year net exactly one increment: the first call returns success
with one more ticket and stamps `lastRedemptionYear`, and the second
call writes nothing and returns `already_redeemed_this_year`. -/
theorem claim4_single_credit_per_year (year : Int) (users : UserStore) (username : String)
    (hne : username ≠ "")
    (hfirst : ∀ k u, findUserWeb users (toLowerStr username) = some (k, u) →
      u.lastRedemptionYear ≠ some year) :
    (addTicketToUser year users username).2 =
      .success ((match findUserWeb users (toLowerStr username) with
                 | some p => p.2.ticketsAvailable
                 | none => 0) + 1) ∧
    (∃ k u1, findUserWeb (addTicketToUser year users username).1 (toLowerStr username) =
        some (k, u1) ∧
      u1.ticketsAvailable = (match findUserWeb users (toLowerStr username) with
                             | some p => p.2.ticketsAvailable
                             | none => 0) + 1 ∧
      u1.lastRedemptionYear = some year) ∧
    addTicketToUser year (addTicketToUser year users username).1 username =
      ((addTicketToUser year users username).1, .alreadyRedeemed) := by
  cases hf : findUserWeb users (toLowerStr username) with
  | some p =>
    obtain ⟨k, u0⟩ := p
    have hG : getOrCreateUser users username = ⟨users, k, u0⟩ := by
      unfold getOrCreateUser
      simp only [hf]
    have hA : addTicketToUser year users username =
        (patchUser users k (fun u =>
          { u with ticketsAvailable := u0.ticketsAvailable + 1,
                   lastRedemptionYear := some year }), .success (u0.ticketsAvailable + 1)) := by
      unfold addTicketToUser
      rw [hG]
      rw [if_neg (hfirst k u0 hf)]
    have hfind2 : findUserWeb (patchUser users k (fun u =>
        { u with ticketsAvailable := u0.ticketsAvailable + 1,
                 lastRedemptionYear := some year })) (toLowerStr username) =
        some (k, { u0 with ticketsAvailable := u0.ticketsAvailable + 1,
                           lastRedemptionYear := some year }) := by
      rw [findUserWeb_patch (f := fun u =>
        { u with ticketsAvailable := u0.ticketsAvailable + 1,
                 lastRedemptionYear := some year }) (fun u => rfl), hf]
      simp
    refine ⟨by rw [hA], ⟨k, _, by rw [hA]; exact hfind2, by simp, rfl⟩, ?_⟩
    have hG2 : getOrCreateUser (patchUser users k (fun u =>
        { u with ticketsAvailable := u0.ticketsAvailable + 1,
                 lastRedemptionYear := some year })) username =
        ⟨(patchUser users k (fun u =>
          { u with ticketsAvailable := u0.ticketsAvailable + 1,
                   lastRedemptionYear := some year })), k,
         { u0 with ticketsAvailable := u0.ticketsAvailable + 1,
                   lastRedemptionYear := some year }⟩ := by
      unfold getOrCreateUser
      simp only [hfind2]
    rw [hA]
    unfold addTicketToUser
    rw [hG2]
    rw [if_pos rfl]
  | none =>
    have hG : getOrCreateUser users username =
        ⟨putUser users (toString (if ((users.map (fun e => e.1)).filterMap parseJsInt).length > 0
            then maxKey ((users.map (fun e => e.1)).filterMap parseJsInt) + 1 else 1))
          ⟨toLowerStr username, 0, [], none⟩,
         toString (if ((users.map (fun e => e.1)).filterMap parseJsInt).length > 0
            then maxKey ((users.map (fun e => e.1)).filterMap parseJsInt) + 1 else 1),
         ⟨toLowerStr username, 0, [], none⟩⟩ := by
      unfold getOrCreateUser
      simp only [hf]
    set key := toString (if ((users.map (fun e => e.1)).filterMap parseJsInt).length > 0
        then maxKey ((users.map (fun e => e.1)).filterMap parseJsInt) + 1 else 1) with hkey
    have hA : addTicketToUser year users username =
        (patchUser (putUser users key ⟨toLowerStr username, 0, [], none⟩) key (fun u =>
          { u with ticketsAvailable := (0 : Int) + 1,
                   lastRedemptionYear := some year }), .success ((0 : Int) + 1)) := by
      unfold addTicketToUser
      rw [hG]
      rw [if_neg (by simp)]
    have hput : findUserWeb (putUser users key ⟨toLowerStr username, 0, [], none⟩)
        (toLowerStr username) = some (key, ⟨toLowerStr username, 0, [], none⟩) :=
      findUserWeb_put_fresh hf key _ (toLowerStr_ne_empty hne) (toLowerStr_idem username)
    have hfind2 : findUserWeb (patchUser (putUser users key ⟨toLowerStr username, 0, [], none⟩)
        key (fun u => { u with ticketsAvailable := (0 : Int) + 1,
                               lastRedemptionYear := some year })) (toLowerStr username) =
        some (key, ⟨toLowerStr username, (0 : Int) + 1, [], some year⟩) := by
      rw [findUserWeb_patch (f := fun u =>
        { u with ticketsAvailable := (0 : Int) + 1,
                 lastRedemptionYear := some year }) (fun u => rfl), hput]
      simp
    refine ⟨by rw [hA], ⟨key, _, by rw [hA]; exact hfind2, by simp, rfl⟩, ?_⟩
    have hG2 : getOrCreateUser (patchUser (putUser users key ⟨toLowerStr username, 0, [], none⟩)
        key (fun u => { u with ticketsAvailable := (0 : Int) + 1,
                               lastRedemptionYear := some year })) username =
        ⟨(patchUser (putUser users key ⟨toLowerStr username, 0, [], none⟩)
          key (fun u => { u with ticketsAvailable := (0 : Int) + 1,
                                 lastRedemptionYear := some year })), key,
         ⟨toLowerStr username, (0 : Int) + 1, [], some year⟩⟩ := by
      unfold getOrCreateUser
      simp only [hfind2]
    rw [hA]
    unfold addTicketToUser
    rw [hG2]
    rw [if_pos rfl]

/-- C4 witness: crediting "Alice" twice in 2024 over a store holding a
year-less "alice" record: first call succeeds with one ticket, second
call is rejected without a write. -/
theorem claim4_single_credit_per_year_witness :
    (addTicketToUser 2024 [("1", ⟨"alice", 0, [], none⟩)] "Alice").2 = .success 1 ∧
    addTicketToUser 2024
        (addTicketToUser 2024 [("1", ⟨"alice", 0, [], none⟩)] "Alice").1 "Alice" =
      ((addTicketToUser 2024 [("1", ⟨"alice", 0, [], none⟩)] "Alice").1,
       .alreadyRedeemed) := by
  have h := claim4_single_credit_per_year 2024 [("1", ⟨"alice", 0, [], none⟩)] "Alice"
    (by decide) (fun k u hk => by cases hk; decide)
  exact ⟨h.1.trans (by decide), h.2.2⟩

/-! ## Claim C8 -/

/-- C8: username identity is case-insensitive throughout.  For a stored
record whose username equals the input up to ASCII lower-casing and is
the first case-insensitive match: the credit operation finds and
credits that record in place — the store keeps its length, so no new
record is created; the claim flow's user scan finds the same record;
and the `claimedBy` comparison for code disclosure accepts the input. -/
theorem claim8_case_insensitive (stored input : String) (hne : stored ≠ "")
    (hlow : toLowerStr stored = toLowerStr input)
    (year : Int) (P rest : UserStore) (k : String) (u : User) (hu : u.username = stored)
    (hP : findUserWeb P (toLowerStr input) = none)
    (hPa : findUserApp P (toLowerStr input) = none)
    (hyear : u.lastRedemptionYear ≠ some year)
    (verification : List (String × String)) (gid : String)
    (hv : getAssoc verification gid = some input) :
    addTicketToUser year (P ++ (k, u) :: rest) input =
      (patchUser (P ++ (k, u) :: rest) k (fun v =>
        { v with ticketsAvailable := u.ticketsAvailable + 1,
                 lastRedemptionYear := some year }), .success (u.ticketsAvailable + 1)) ∧
    (patchUser (P ++ (k, u) :: rest) k (fun v =>
        { v with ticketsAvailable := u.ticketsAvailable + 1,
                 lastRedemptionYear := some year })).length = (P ++ (k, u) :: rest).length ∧
    findUserApp (P ++ (k, u) :: rest) (toLowerStr input) = some (k, u) ∧
    isVerifiedUser verification (some stored) gid = true := by
  have humatch : toLowerStr u.username = toLowerStr input := by rw [hu, hlow]
  have hune : u.username ≠ "" := by rw [hu]; exact hne
  have hfind : findUserWeb (P ++ (k, u) :: rest) (toLowerStr input) = some (k, u) := by
    rw [findUserWeb_append_none hP, findUserWeb_cons_match rest hune humatch]
  refine ⟨?_, ?_, ?_, ?_⟩
  · have hG : getOrCreateUser (P ++ (k, u) :: rest) input = ⟨P ++ (k, u) :: rest, k, u⟩ := by
      unfold getOrCreateUser
      simp only [hfind]
    unfold addTicketToUser
    rw [hG]
    rw [if_neg hyear]
  · unfold patchUser
    exact List.length_map _ _
  · rw [findUserApp_append_none hPa, findUserApp_cons_match rest humatch]
  · unfold isVerifiedUser
    rw [hv]
    show (some (toLowerStr stored) == some (toLowerStr input)) = true
    rw [hlow]
    exact beq_self_eq_true _

/-- C8 witness: stored `"Bob"`, redemption login `"BOB"`, disclosure
input `"BOB"` against `claimedBy = "Bob"`. -/
theorem claim8_case_insensitive_witness :
    addTicketToUser 2024 [("1", ⟨"Bob", 0, [], none⟩)] "BOB" =
      (patchUser [("1", ⟨"Bob", 0, [], none⟩)] "1" (fun v =>
        { v with ticketsAvailable := 1, lastRedemptionYear := some 2024 }),
       .success 1) ∧
    findUserApp [("1", ⟨"Bob", 0, [], none⟩)] (toLowerStr "BOB") =
      some ("1", ⟨"Bob", 0, [], none⟩) ∧
    isVerifiedUser [("g1", "BOB")] (some "Bob") "g1" = true := by
  have h := claim8_case_insensitive "Bob" "BOB" (by decide) (by decide) 2024 [] []
    "1" ⟨"Bob", 0, [], none⟩ rfl rfl rfl (by decide) [("g1", "BOB")] "g1" rfl
  exact ⟨h.1.trans (by decide), h.2.2.1.trans (by decide), h.2.2.2⟩

/-! ## Claim C6 -/

/-- C6: when the signature header is absent the handler never produces
a 403 response, and (configuration permitting) its result is exactly
the message-type dispatch on the body — signature verification is
skipped entirely, whatever the body contains. -/
theorem claim6_absent_signature_skips_verification (env : Env) (year : Int) (users : UserStore) (ev : Event)
    (hsig : ev.headers.signature = none) :
    (∀ resp users', handler env year users ev = .ok resp users' → resp.statusCode ≠ 403) ∧
    (jsTruthy env.twitchWebhookSecret = true → jsTruthy env.databaseUrl = true →
      handler env year users ev = processMessage year users ev) := by
  unfold handler
  by_cases h1 : jsTruthy env.twitchWebhookSecret
  · rw [if_neg (by simp [h1])]
    by_cases h2 : jsTruthy env.databaseUrl
    · rw [if_neg (by simp [h2])]
      rw [hsig]
      rw [if_neg (by simp [jsTruthy])]
      exact ⟨fun resp users' h => processMessage_not_403 year users ev h, fun _ _ => rfl⟩
    · rw [if_pos (by simp [h2])]
      refine ⟨?_, fun _ hdb => absurd hdb (by simp [h2])⟩
      intro resp users' h
      simp only [HResult.ok.injEq] at h
      rw [← h.1]
      simp
  · rw [if_pos (by simp [h1])]
    refine ⟨?_, fun hsec _ => absurd hsec (by simp [h1])⟩
    intro resp users' h
    simp only [HResult.ok.injEq] at h
    rw [← h.1]
    simp

/-- C6 witness: a concrete signature-less notification request is
dispatched by message type (and, here, credits the configured
redemption). -/
theorem claim6_absent_signature_skips_verification_witness :
    handler ⟨some "sec", some "http://db", none⟩ 2024 []
        ⟨⟨some "m1", some "t1", none, some "notification"⟩, "b1",
         some ⟨none, some ⟨"channel.channel_points_custom_reward_redemption.add"⟩,
               some ⟨"Redeem a Free Game!", "alice", "Alice"⟩⟩⟩ =
      processMessage 2024 []
        ⟨⟨some "m1", some "t1", none, some "notification"⟩, "b1",
         some ⟨none, some ⟨"channel.channel_points_custom_reward_redemption.add"⟩,
               some ⟨"Redeem a Free Game!", "alice", "Alice"⟩⟩⟩ :=
  (claim6_absent_signature_skips_verification ⟨some "sec", some "http://db", none⟩ 2024 []
      ⟨⟨some "m1", some "t1", none, some "notification"⟩, "b1",
       some ⟨none, some ⟨"channel.channel_points_custom_reward_redemption.add"⟩,
             some ⟨"Redeem a Free Game!", "alice", "Alice"⟩⟩⟩ rfl).2 (by decide) (by decide)

/-! ## Claim C7 -/

/-- C7: a well-formed notification request that passes the
configuration and signature gates is answered 204 with an empty body
whatever the crediting outcome, and a non-matching subscription type or
reward title leaves the user store untouched.  (The embedded crediting
operation is total, so the source's catch-and-log around it has nothing
to catch in the model; the 204 response is unconditional either way.) -/
theorem claim7_notification_always_204 (env : Env) (year : Int) (users : UserStore) (ev : Event)
    (p : Payload) (sub : Subscription)
    (hsec : jsTruthy env.twitchWebhookSecret = true)
    (hdb : jsTruthy env.databaseUrl = true)
    (hgate : ev.headers.signature = none ∨
      verifySignature (jsStringOf ev.headers.messageId) (jsStringOf ev.headers.timestamp)
        ev.body (jsStringOf ev.headers.signature) (jsStringOf env.twitchWebhookSecret) =
          .ok true)
    (hparse : ev.parsedBody = some p)
    (htype : ev.headers.messageType = some "notification")
    (hsub : p.subscription = some sub)
    (hevent : sub.type = REDEMPTION_TYPE → p.event ≠ none) :
    ∃ users', handler env year users ev = .ok ⟨204, some ""⟩ users' ∧
      ((sub.type ≠ REDEMPTION_TYPE ∨
        ∀ red, p.event = some red → red.rewardTitle ≠ REWARD_TITLE) → users' = users) := by
  have hH : handler env year users ev = processMessage year users ev := by
    unfold handler
    rw [if_neg (by simp [hsec]), if_neg (by simp [hdb])]
    rcases hgate with h | h
    · rw [h]
      rw [if_neg (by simp [jsTruthy])]
    · by_cases hs : jsTruthy ev.headers.signature
      · rw [if_pos hs, h]
      · rw [if_neg hs]
  rw [hH]
  unfold processMessage
  simp only [hparse, htype, hsub]
  rw [if_pos trivial]
  by_cases hst : sub.type = REDEMPTION_TYPE
  · rw [if_pos hst]
    cases hev : p.event with
    | none => exact absurd hev (hevent hst)
    | some red =>
      refine ⟨_, rfl, ?_⟩
      intro hc
      rcases hc with hc | hc
      · exact absurd hst hc
      · rw [if_neg (hc red rfl)]
  · rw [if_neg hst]
    exact ⟨users, rfl, fun _ => rfl⟩

/-- C7 witness: a notification for a different reward title is accepted
with 204 and no store change. -/
theorem claim7_notification_always_204_witness :
    ∃ users', handler ⟨some "sec", some "http://db", none⟩ 2024
        [("1", ⟨"alice", 0, [], none⟩)]
        ⟨⟨some "m1", some "t1", none, some "notification"⟩, "b1",
         some ⟨none, some ⟨"channel.channel_points_custom_reward_redemption.add"⟩,
               some ⟨"Some Other Reward", "alice", "Alice"⟩⟩⟩ =
      .ok ⟨204, some ""⟩ users' ∧
      (((Subscription.mk "channel.channel_points_custom_reward_redemption.add").type ≠
          REDEMPTION_TYPE ∨
        ∀ red, (Payload.mk none
            (some ⟨"channel.channel_points_custom_reward_redemption.add"⟩)
            (some ⟨"Some Other Reward", "alice", "Alice"⟩)).event = some red →
          red.rewardTitle ≠ REWARD_TITLE) → users' = [("1", ⟨"alice", 0, [], none⟩)]) :=
  claim7_notification_always_204 ⟨some "sec", some "http://db", none⟩ 2024
    [("1", ⟨"alice", 0, [], none⟩)]
    ⟨⟨some "m1", some "t1", none, some "notification"⟩, "b1",
     some ⟨none, some ⟨"channel.channel_points_custom_reward_redemption.add"⟩,
           some ⟨"Some Other Reward", "alice", "Alice"⟩⟩⟩
    ⟨none, some ⟨"channel.channel_points_custom_reward_redemption.add"⟩,
     some ⟨"Some Other Reward", "alice", "Alice"⟩⟩
    ⟨"channel.channel_points_custom_reward_redemption.add"⟩
    (by decide) (by decide) (Or.inl rfl) rfl rfl rfl
    (fun _ => by decide)

/-! ## Claims C5 and C9 — the signature gate

`handler_sig_cases` settles the whole gate at once: with a truthy
signature header the run is decided by comparing the UTF-8 bytes of the
recomputed expected signature with those of the supplied one — equal
lengths and equal bytes proceed, equal lengths and different bytes get
403, different lengths throw (`crypto.timingSafeEqual` raises on
unequal buffer sizes and nothing catches it). -/

theorem jsStringOf_some (s : String) : jsStringOf (some s) = s := rfl

theorem handler_sig_cases (env : Env) (year : Int) (users : UserStore)
    (headers : Headers) (body : String) (parsed : Option Payload) (sig : String)
    (hsec : jsTruthy env.twitchWebhookSecret = true)
    (hdb : jsTruthy env.databaseUrl = true)
    (hsig : headers.signature = some sig) (hne : sig ≠ "") :
    handler env year users ⟨headers, body, parsed⟩ =
      if (utf8Str (expectedSignature (jsStringOf env.twitchWebhookSecret)
            (jsStringOf headers.messageId) (jsStringOf headers.timestamp) body)).length =
          (utf8Str sig).length then
        (if utf8Str (expectedSignature (jsStringOf env.twitchWebhookSecret)
              (jsStringOf headers.messageId) (jsStringOf headers.timestamp) body) =
            utf8Str sig then
           processMessage year users ⟨headers, body, parsed⟩
         else .ok ⟨403, some "Invalid signature"⟩ users)
      else .thrown users := by
  unfold handler
  rw [if_neg (by simp [hsec]), if_neg (by simp [hdb])]
  simp only [hsig]
  rw [if_pos (by simp [jsTruthy, hne])]
  have hver : verifySignature (jsStringOf headers.messageId) (jsStringOf headers.timestamp)
      body sig (jsStringOf env.twitchWebhookSecret) =
      timingSafeEqual (utf8Str (expectedSignature (jsStringOf env.twitchWebhookSecret)
        (jsStringOf headers.messageId) (jsStringOf headers.timestamp) body)) (utf8Str sig) := rfl
  simp only [jsStringOf_some]
  rw [hver]
  unfold timingSafeEqual
  by_cases hl : (utf8Str (expectedSignature (jsStringOf env.twitchWebhookSecret)
      (jsStringOf headers.messageId) (jsStringOf headers.timestamp) body)).length =
      (utf8Str sig).length
  · rw [if_pos hl, if_pos hl]
    by_cases heq : utf8Str (expectedSignature (jsStringOf env.twitchWebhookSecret)
        (jsStringOf headers.messageId) (jsStringOf headers.timestamp) body) = utf8Str sig
    · rw [decide_eq_true heq, if_pos heq]
    · rw [decide_eq_false heq, if_neg heq]
  · rw [if_neg hl, if_neg hl]


/-- C5 (amended): with a truthy signature header, the handler accepts
exactly the signature equal to `"sha256=" + hex(HMAC-SHA256(secret,
messageId‖timestamp‖body))`; a *71-byte* signature differing from that
string is answered 403 with no further action.  (A differing signature
of any other byte length makes the handler throw instead — see C9.) -/
theorem claim5_signature_gate (env : Env) (year : Int) (users : UserStore)
    (headers : Headers) (body : String) (parsed : Option Payload) (sig : String)
    (hsec : jsTruthy env.twitchWebhookSecret = true)
    (hdb : jsTruthy env.databaseUrl = true)
    (hsig : headers.signature = some sig) :
    (sig = expectedSignature (jsStringOf env.twitchWebhookSecret)
        (jsStringOf headers.messageId) (jsStringOf headers.timestamp) body →
      handler env year users ⟨headers, body, parsed⟩ =
        processMessage year users ⟨headers, body, parsed⟩) ∧
    (sig ≠ expectedSignature (jsStringOf env.twitchWebhookSecret)
        (jsStringOf headers.messageId) (jsStringOf headers.timestamp) body →
      (utf8Str sig).length = 71 →
      handler env year users ⟨headers, body, parsed⟩ =
        .ok ⟨403, some "Invalid signature"⟩ users) := by
  constructor
  · intro hs
    subst hs
    rw [handler_sig_cases env year users headers body parsed _ hsec hdb hsig
      (expectedSignature_ne_empty _ _ _ _)]
    rw [if_pos rfl, if_pos rfl]
  · intro hneq hlen
    have hne : sig ≠ "" := by
      intro h
      rw [h] at hlen
      exact absurd hlen (by decide)
    rw [handler_sig_cases env year users headers body parsed sig hsec hdb hsig hne]
    rw [if_pos (by rw [expectedSignature_utf8_length, hlen])]
    rw [if_neg (fun heq => hneq
      (utf8Str_inj_ascii (expectedSignature_ascii _ _ _ _) heq).symm)]


/-- C5 counterexample to the claim as stated: a differing signature of
the wrong byte length (`"sha256=bad"`, 10 bytes) does not produce the
promised 403 — the handler ends in an uncaught exception. -/
theorem claim5_counterexample :
    "sha256=bad" ≠ expectedSignature "sec" "m1" "t1" "b1" ∧
    handler ⟨some "sec", some "http://db", none⟩ 2024 []
        ⟨⟨some "m1", some "t1", some "sha256=bad", some "notification"⟩, "b1", none⟩ =
      .thrown [] := by
  have hlen : (utf8Str "sha256=bad").length = 10 := by decide
  constructor
  · intro h
    have h2 := congrArg (fun s => (utf8Str s).length) h
    simp only [expectedSignature_utf8_length, hlen] at h2
    exact absurd h2 (by decide)
  · rw [handler_sig_cases ⟨some "sec", some "http://db", none⟩ 2024 []
      ⟨some "m1", some "t1", some "sha256=bad", some "notification"⟩ "b1" none
      "sha256=bad" (by decide) (by decide) rfl (by decide)]
    rw [if_neg (by rw [expectedSignature_utf8_length, hlen]; decide)]


set_option maxRecDepth 40000 in
/-- C5 witness: the exact expected signature is accepted (the handler
proceeds to message processing), and the valid signature for a
*different* body — equal length, different bytes — is answered 403. -/
theorem claim5_signature_gate_witness :
    handler ⟨some "sec", some "http://db", none⟩ 2024 []
        ⟨⟨some "m1", some "t1", some (expectedSignature "sec" "m1" "t1" "b1"),
          some "revocation"⟩, "b1", some ⟨none, some ⟨"x"⟩, none⟩⟩ =
      processMessage 2024 []
        ⟨⟨some "m1", some "t1", some (expectedSignature "sec" "m1" "t1" "b1"),
          some "revocation"⟩, "b1", some ⟨none, some ⟨"x"⟩, none⟩⟩ ∧
    handler ⟨some "sec", some "http://db", none⟩ 2024 []
        ⟨⟨some "m1", some "t1", some (expectedSignature "sec" "m1" "t1" "b2"),
          some "revocation"⟩, "b1", some ⟨none, some ⟨"x"⟩, none⟩⟩ =
      .ok ⟨403, some "Invalid signature"⟩ [] := by
  constructor
  · exact (claim5_signature_gate ⟨some "sec", some "http://db", none⟩ 2024 []
      ⟨some "m1", some "t1", some (expectedSignature "sec" "m1" "t1" "b1"),
       some "revocation"⟩ "b1" (some ⟨none, some ⟨"x"⟩, none⟩)
      (expectedSignature "sec" "m1" "t1" "b1") (by decide) (by decide) rfl).1 rfl
  · exact (claim5_signature_gate ⟨some "sec", some "http://db", none⟩ 2024 []
      ⟨some "m1", some "t1", some (expectedSignature "sec" "m1" "t1" "b2"),
       some "revocation"⟩ "b1" (some ⟨none, some ⟨"x"⟩, none⟩)
      (expectedSignature "sec" "m1" "t1" "b2") (by decide) (by decide) rfl).2
      (by decide) (expectedSignature_utf8_length "sec" "m1" "t1" "b2")

/-- C9 counterexample to the claim as stated: a request *carrying* a
signature header whose value is the empty string (0 bytes ≠ 71) does
not throw — JS truthiness treats it as absent and verification is
skipped. -/
theorem claim9_counterexample :
    (utf8Str "").length ≠ 71 ∧
    handler ⟨some "sec", some "http://db", none⟩ 2024 []
        ⟨⟨some "m1", some "t1", some "", some "other"⟩, "b1", some ⟨none, none, none⟩⟩ =
      .ok ⟨200, some "OK"⟩ [] := by decide

/-- C9 (amended): with a truthy (non-empty) signature header whose
UTF-8 byte length differs from the 71 bytes of the expected
`"sha256=" + 64 hex` string, `verifySignature` throws inside
`crypto.timingSafeEqual` and the handler, having no surrounding catch,
ends in the uncaught exception instead of a 403; a 403 response arises
only from a 71-byte signature differing from the expected string. -/
theorem claim9_signature_length (env : Env) (year : Int) (users : UserStore)
    (headers : Headers) (body : String) (parsed : Option Payload) (sig : String)
    (hsec : jsTruthy env.twitchWebhookSecret = true)
    (hdb : jsTruthy env.databaseUrl = true)
    (hsig : headers.signature = some sig) (hne : sig ≠ "") :
    ((utf8Str sig).length ≠ 71 →
      handler env year users ⟨headers, body, parsed⟩ = .thrown users) ∧
    (∀ resp users', handler env year users ⟨headers, body, parsed⟩ = .ok resp users' →
      resp.statusCode = 403 →
      (utf8Str sig).length = 71 ∧
      sig ≠ expectedSignature (jsStringOf env.twitchWebhookSecret)
        (jsStringOf headers.messageId) (jsStringOf headers.timestamp) body) := by
  rw [handler_sig_cases env year users headers body parsed sig hsec hdb hsig hne]
  constructor
  · intro hlen
    rw [if_neg (by rw [expectedSignature_utf8_length]; exact fun h => hlen h.symm)]
  · intro resp users' hok h403
    split at hok
    next hl =>
      split at hok
      next heq =>
        exact absurd (processMessage_not_403 year users _ hok) (by simp [h403])
      next heq =>
        constructor
        · rw [← hl, expectedSignature_utf8_length]
        · intro hs
          exact heq (by rw [hs])
    next hl => exact absurd hok (by simp)

/-- C9 witness: the one-byte signature `"x"` ends the run in the
uncaught exception rather than any HTTP response. -/
theorem claim9_signature_length_witness :
    handler ⟨some "sec", some "http://db", none⟩ 2024 []
        ⟨⟨some "m1", some "t1", some "x", some "revocation"⟩, "b1",
         some ⟨none, some ⟨"y"⟩, none⟩⟩ =
      .thrown [] :=
  (claim9_signature_length ⟨some "sec", some "http://db", none⟩ 2024 []
    ⟨some "m1", some "t1", some "x", some "revocation"⟩ "b1"
    (some ⟨none, some ⟨"y"⟩, none⟩) "x"
    (by decide) (by decide) rfl (by decide)).1 (by decide)
